import Mathlib

/-!
Shallow embedding of the task-manager process (src/task-manager/src/lib.rs).

The registry state (`TaskManagerState`) holds the task map, the WebSocket
subscriber directory and the two analytics counters.  Rust `HashMap`s are
modelled as association lists with first-match lookup, replace-in-place
insertion and key erasure; with unique keys these agree with `HashMap`
semantics, and iteration order is the (stable) list order, which matches the
spec's "order unspecified but stable".  The `u64` counters and timestamps are
modelled as `Nat`: no claim concerns wraparound, and the counters only ever
grow by one per request.

External collaborators are modelled at their interface boundary:
- `SendResult` is the outcome type of the storage collaborator
  (`hyperware_app_common::SendResult`); its `isOk` is true exactly on
  `Success`, which is how `create_task` and `update_task_status` fold the
  outcome into `storage_status`.
- the HTTP server handle (`get_server()`) and the per-channel
  `send_ws_message` results are an `Env`: whether the server is available,
  and which channels' sends succeed.  The source discards every send result
  (`let _ = ...`), so the operations record the attempted sends and their
  would-be outcomes rather than branching on them.
- `serde_json` serialization of `Task` / `Vec<Task>` is total for these
  field types, so it is modelled as the identity (the payload of a send is
  the task, or task list, itself).
- UUID generation and the clock are out of scope (spec section 1); each
  create receives the generated identifier and the current timestamp as
  arguments.
-/

set_option autoImplicit false

namespace TaskManager

inductive TaskStatus where
  | Pending
  | InProgress
  | Completed
  | Cancelled
deriving DecidableEq, Repr

/-- Task record: identifier, title, description, status, creation timestamp
(seconds since epoch), optional assignee. -/
structure Task where
  id : String
  title : String
  description : String
  status : TaskStatus
  created_at : Nat
  assigned_to : Option String
deriving DecidableEq, Repr

/-- First-match lookup in an association list (`HashMap::get`). -/
def mapFind {κ α : Type} [DecidableEq κ] : List (κ × α) → κ → Option α
  | [], _ => none
  | (k0, v0) :: rest, k => if k0 = k then some v0 else mapFind rest k

/-- Replace-in-place insertion (`HashMap::insert`): overwrites the value of an
existing key, otherwise appends the new entry. -/
def mapInsert {κ α : Type} [DecidableEq κ] : List (κ × α) → κ → α → List (κ × α)
  | [], k, v => [(k, v)]
  | (k0, v0) :: rest, k, v =>
      if k0 = k then (k, v) :: rest else (k0, v0) :: mapInsert rest k v

/-- Key removal (`HashMap::remove`): erases every entry with the key (at most
one exists under the unique-key invariant). -/
def mapRemove {κ α : Type} [DecidableEq κ] : List (κ × α) → κ → List (κ × α)
  | [], _ => []
  | (k0, v0) :: rest, k =>
      if k0 = k then mapRemove rest k else (k0, v0) :: mapRemove rest k

/-- Application state: task map, subscriber directory
(channel identifier to client identifier) and the two counters. -/
structure TaskManagerState where
  tasks : List (String × Task)
  active_ws_connections : List (Nat × String)
  request_count : Nat
  task_creation_count : Nat
deriving Repr

/-- Outcome type of a call to the storage collaborator
(hyperware SendResult). -/
inductive SendResult (α : Type) where
  | Success : α → SendResult α
  | Timeout : SendResult α
  | Offline : SendResult α
  | DeserializationError : String → SendResult α
deriving DecidableEq, Repr

/-- Library predicate folded into `storage_status`: true exactly on
`Success`. -/
def SendResult.isOk {α : Type} : SendResult α → Bool
  | .Success _ => true
  | _ => false

/-- Environment of the external push primitive: whether `get_server()` yields
a server handle, and the success/failure each channel's send would report.
The source ignores the latter. -/
structure Env where
  serverAvailable : Bool
  sendResult : Nat → Bool

structure NewTaskRequest where
  title : String
  description : String
  assigned_to : Option String
deriving DecidableEq, Repr

structure TaskStatusUpdateRequest where
  task_id : String
  new_status : TaskStatus
deriving DecidableEq, Repr

structure TaskResponse where
  success : Bool
  task : Option Task
  storage_status : Bool
  message : String
deriving DecidableEq, Repr

structure TaskManagerStats where
  total_tasks : Nat
  pending_tasks : Nat
  completed_tasks : Nat
  creation_count : Nat
  request_count : Nat
deriving DecidableEq, Repr

inductive WebSocketMessage where
  | Subscribe : String → WebSocketMessage
  | Unsubscribe : WebSocketMessage
deriving DecidableEq, Repr

/-- Message kinds of the WebSocket channel (hyperware WsMessageType). -/
inductive WsMessageType where
  | Text
  | Binary
  | Ping
  | Pong
  | Close
deriving DecidableEq, Repr

/-- Fan-out of one task to every subscribed channel
(broadcast_task_update, lib.rs lines 253-261).  Returns the attempted sends:
channel, payload (the serialized task) and the send outcome the push
primitive would report, which the source discards (`let _ =`), so the list of
attempts does not depend on any outcome.  With no server handle nothing is
sent. -/
def broadcast_task_update (env : Env) (s : TaskManagerState) (task : Task) :
    List (Nat × Task × Bool) :=
  if env.serverAvailable then
    s.active_ws_connections.map (fun kv => (kv.1, task, env.sendResult kv.1))
  else []

/-- Create endpoint (create_task, lib.rs lines 100-134): bump the request
counter, build the task from the generated identifier `gen_id`, the clock
value `now` and the request, insert it, bump the creation counter, record the
storage outcome in `storage_status`, broadcast, and answer with the task.
Returns the new state, the response and the broadcast attempts. -/
def create_task (env : Env) (gen_id : String) (now : Nat)
    (outcome : SendResult Bool) (s : TaskManagerState) (req : NewTaskRequest) :
    TaskManagerState × TaskResponse × List (Nat × Task × Bool) :=
  let task : Task :=
    { id := gen_id, title := req.title, description := req.description,
      status := TaskStatus.Pending, created_at := now,
      assigned_to := req.assigned_to }
  let s2 : TaskManagerState :=
    { s with request_count := s.request_count + 1,
             tasks := mapInsert s.tasks gen_id task,
             task_creation_count := s.task_creation_count + 1 }
  (s2,
   { success := true, task := some task, storage_status := outcome.isOk,
     message := "Task created successfully" },
   broadcast_task_update env s2 task)

/-- List endpoint (get_all_tasks, lib.rs lines 138-141): bump the request
counter, return every task. -/
def get_all_tasks (s : TaskManagerState) : TaskManagerState × List Task :=
  ({ s with request_count := s.request_count + 1 },
   s.tasks.map (fun kv => kv.2))

/-- Lookup endpoint (get_task, lib.rs lines 145-162): bump the request
counter either way; a hit answers with the task, a miss answers with the
structured not-found response. -/
def get_task (s : TaskManagerState) (task_id : String) :
    TaskManagerState × TaskResponse :=
  let s1 : TaskManagerState := { s with request_count := s.request_count + 1 }
  match mapFind s.tasks task_id with
  | some task =>
      (s1, { success := true, task := some task, storage_status := true,
             message := "Task found" })
  | none =>
      (s1, { success := false, task := none, storage_status := true,
             message := "Task not found" })

/-- Status-update endpoint (update_task_status, lib.rs lines 166-192): bump
the request counter; on a hit overwrite the status in place (no transition
check), record the storage outcome, broadcast and answer with the updated
task; on a miss answer with the not-found response and touch nothing else. -/
def update_task_status (env : Env) (outcome : SendResult Bool)
    (s : TaskManagerState) (req : TaskStatusUpdateRequest) :
    TaskManagerState × TaskResponse × List (Nat × Task × Bool) :=
  let s1 : TaskManagerState := { s with request_count := s.request_count + 1 }
  match mapFind s.tasks req.task_id with
  | some task0 =>
      let task : Task := { task0 with status := req.new_status }
      let s2 : TaskManagerState :=
        { s1 with tasks := mapInsert s1.tasks req.task_id task }
      (s2,
       { success := true, task := some task, storage_status := outcome.isOk,
         message := "Task updated successfully" },
       broadcast_task_update env s2 task)
  | none =>
      (s1,
       { success := false, task := none, storage_status := false,
         message := "Task not found" },
       [])

/-- Statistics operation (get_statistics, lib.rs lines 196-204): scan the
collection at call time; no counter is touched. -/
def get_statistics (s : TaskManagerState) : TaskManagerStats :=
  { total_tasks := s.tasks.length,
    pending_tasks :=
      ((s.tasks.map (fun kv => kv.2)).filter
        (fun t => t.status = TaskStatus.Pending)).length,
    completed_tasks :=
      ((s.tasks.map (fun kv => kv.2)).filter
        (fun t => t.status = TaskStatus.Completed)).length,
    creation_count := s.task_creation_count,
    request_count := s.request_count }

/-- Filter operation (get_tasks_by_status, lib.rs lines 207-215): pure filter
over the snapshot; the state is returned untouched (the source takes
`&mut self` but mutates nothing). -/
def get_tasks_by_status (s : TaskManagerState) (status : TaskStatus) :
    TaskManagerState × List Task :=
  (s, (s.tasks.map (fun kv => kv.2)).filter (fun t => t.status = status))

/-- WebSocket handler (handle_websocket, lib.rs lines 219-250).  `blob` is
the decoded binary payload (`none` models a DecodeError, which is dropped).
Subscribe registers the channel then, when a server handle exists, pushes the
full task list to that channel alone via `get_all_tasks` (which bumps the
request counter); Unsubscribe and Close remove the channel; other kinds are
ignored.  Returns the new state and the initial-sync sends. -/
def handle_websocket (env : Env) (s : TaskManagerState) (channel_id : Nat)
    (message_type : WsMessageType) (blob : Option WebSocketMessage) :
    TaskManagerState × List (Nat × List Task × Bool) :=
  match message_type with
  | .Binary =>
      match blob with
      | some (.Subscribe client_id) =>
          let s1 : TaskManagerState :=
            { s with active_ws_connections :=
                mapInsert s.active_ws_connections channel_id client_id }
          if env.serverAvailable then
            let res := get_all_tasks s1
            (res.1, [(channel_id, res.2, env.sendResult channel_id)])
          else (s1, [])
      | some .Unsubscribe =>
          ({ s with active_ws_connections :=
              mapRemove s.active_ws_connections channel_id }, [])
      | none => (s, [])
  | .Close =>
      ({ s with active_ws_connections :=
          mapRemove s.active_ws_connections channel_id }, [])
  | _ => (s, [])

/-! Association-list lemmas shared by the claim proofs. -/

theorem mapFind_mapInsert_self {κ α : Type} [DecidableEq κ]
    (m : List (κ × α)) (k : κ) (v : α) :
    mapFind (mapInsert m k v) k = some v := by
  induction m with
  | nil => simp [mapInsert, mapFind]
  | cons hd tl ih =>
      obtain ⟨k0, v0⟩ := hd
      by_cases h : k0 = k
      · simp [mapInsert, h, mapFind]
      · simp [mapInsert, h, mapFind, ih]

theorem length_mapInsert_of_find {κ α : Type} [DecidableEq κ]
    (m : List (κ × α)) (k : κ) (v w : α) (h : mapFind m k = some v) :
    (mapInsert m k w).length = m.length := by
  induction m with
  | nil => simp [mapFind] at h
  | cons hd tl ih =>
      obtain ⟨k0, v0⟩ := hd
      by_cases hk : k0 = k
      · simp [mapInsert, hk]
      · simp only [mapFind, if_neg hk] at h
        simp [mapInsert, hk, ih h]

theorem mem_keys_mapInsert {κ α : Type} [DecidableEq κ]
    (m : List (κ × α)) (k : κ) (v : α) :
    ∃ kv ∈ mapInsert m k v, kv.1 = k := by
  induction m with
  | nil => exact ⟨(k, v), by simp [mapInsert]⟩
  | cons hd tl ih =>
      obtain ⟨k0, v0⟩ := hd
      by_cases h : k0 = k
      · exact ⟨(k, v), by simp [mapInsert, h]⟩
      · obtain ⟨kv, hmem, hk⟩ := ih
        exact ⟨kv, by simp [mapInsert, h, hmem], hk⟩

theorem not_mem_keys_mapRemove {κ α : Type} [DecidableEq κ]
    (m : List (κ × α)) (k : κ) :
    ∀ kv ∈ mapRemove m k, kv.1 ≠ k := by
  induction m with
  | nil => simp [mapRemove]
  | cons hd tl ih =>
      obtain ⟨k0, v0⟩ := hd
      by_cases h : k0 = k
      · simpa [mapRemove, h] using ih
      · intro kv hkv
        simp only [mapRemove, if_neg h, List.mem_cons] at hkv
        rcases hkv with rfl | hkv
        · exact h
        · exact ih kv hkv

/-! Concrete fixtures used by counterexamples and witnesses. -/

/-- Environment with a server handle and all sends succeeding. -/
def env0 : Env := { serverAvailable := true, sendResult := fun _ => true }

/-- Environment with a server handle and every send failing. -/
def envFail : Env := { serverAvailable := true, sendResult := fun _ => false }

/-- Empty registry state. -/
def state0 : TaskManagerState :=
  { tasks := [], active_ws_connections := [], request_count := 0,
    task_creation_count := 0 }

/-- Pre-existing task sitting under identifier "a". -/
def taskA : Task :=
  { id := "a", title := "old", description := "d",
    status := TaskStatus.Completed, created_at := 0, assigned_to := none }

/-- State whose registry already maps "a" to `taskA`. -/
def stateA : TaskManagerState :=
  { tasks := [("a", taskA)], active_ws_connections := [], request_count := 0,
    task_creation_count := 0 }

/-- Request used to create a second task under the colliding identifier. -/
def reqA : NewTaskRequest :=
  { title := "new", description := "nd", assigned_to := none }

/-- C1: the claim is false on the code.  When the generated identifier "a"
already maps to `taskA`, `create_task` does not fail fast: it answers
success and the map now holds the new task in place of `taskA` (line 118 is
a plain `HashMap::insert`, which silently overwrites). -/
theorem C1_counterexample :
    mapFind stateA.tasks "a" = some taskA
    ∧ (create_task env0 "a" 5 SendResult.Timeout stateA reqA).2.1.success = true
    ∧ mapFind (create_task env0 "a" 5 SendResult.Timeout stateA reqA).1.tasks "a"
        = some { id := "a", title := "new", description := "nd",
                 status := TaskStatus.Pending, created_at := 5,
                 assigned_to := none }
    ∧ ({ id := "a", title := "new", description := "nd",
         status := TaskStatus.Pending, created_at := 5,
         assigned_to := none } : Task) ≠ taskA := by
  refine ⟨rfl, rfl, by decide, by decide⟩

/-- C1 amended: on an identifier collision `create_task` performs no check
and silently replaces: it still answers success, the map afterwards holds
the freshly built task under that identifier, and the map size is
unchanged. -/
theorem C1_amended_silent_overwrite (env : Env) (g : String) (n : Nat)
    (o : SendResult Bool) (s : TaskManagerState) (req : NewTaskRequest)
    (t : Task) (h : mapFind s.tasks g = some t) :
    (create_task env g n o s req).2.1.success = true
    ∧ mapFind (create_task env g n o s req).1.tasks g
        = some { id := g, title := req.title, description := req.description,
                 status := TaskStatus.Pending, created_at := n,
                 assigned_to := req.assigned_to }
    ∧ (create_task env g n o s req).1.tasks.length = s.tasks.length := by
  refine ⟨rfl, ?_, ?_⟩
  · exact mapFind_mapInsert_self s.tasks g _
  · exact length_mapInsert_of_find s.tasks g t _ h

/-- Witness for C1 amended at the collision fixture. -/
theorem C1_amended_witness :
    mapFind stateA.tasks "a" = some taskA
    ∧ (create_task env0 "a" 5 SendResult.Timeout stateA reqA).1.tasks.length
        = stateA.tasks.length := by
  have h : mapFind stateA.tasks "a" = some taskA := rfl
  exact ⟨h, (C1_amended_silent_overwrite env0 "a" 5 SendResult.Timeout stateA
    reqA taskA h).2.2⟩

/-- C2: a non-Success storage outcome (Timeout, Offline or
DeserializationError) still yields a success response carrying the created
task, with storage_status false, and the task stays inserted in the
registry. -/
theorem C2_storage_failure_not_rolled_back (env : Env) (g : String) (n : Nat)
    (outcome : SendResult Bool) (s : TaskManagerState) (req : NewTaskRequest)
    (h : outcome = SendResult.Timeout ∨ outcome = SendResult.Offline ∨
         ∃ e, outcome = SendResult.DeserializationError e) :
    ∃ t : Task,
      (create_task env g n outcome s req).2.1.task = some t
      ∧ (create_task env g n outcome s req).2.1.success = true
      ∧ (create_task env g n outcome s req).2.1.storage_status = false
      ∧ mapFind (create_task env g n outcome s req).1.tasks g = some t := by
  refine ⟨_, rfl, rfl, ?_, mapFind_mapInsert_self s.tasks g _⟩
  rcases h with rfl | rfl | ⟨e, rfl⟩ <;> rfl

/-- Witness for C2 at a Timeout outcome on the empty state. -/
theorem C2_witness :
    ∃ t : Task,
      (create_task env0 "w" 3 SendResult.Timeout state0 reqA).2.1.task = some t
      ∧ (create_task env0 "w" 3 SendResult.Timeout state0 reqA).2.1.success = true
      ∧ (create_task env0 "w" 3 SendResult.Timeout state0 reqA).2.1.storage_status = false
      ∧ mapFind (create_task env0 "w" 3 SendResult.Timeout state0 reqA).1.tasks "w"
          = some t :=
  C2_storage_failure_not_rolled_back env0 "w" 3 SendResult.Timeout state0 reqA
    (Or.inl rfl)

/-- C3: on an existing identifier, update_task_status with any status S
(including the current one or a backwards transition) succeeds, and a
subsequent get_task returns the task with status S. -/
theorem C3_update_always_sets_status (env : Env) (outcome : SendResult Bool)
    (s : TaskManagerState) (id : String) (S : TaskStatus) (t : Task)
    (h : mapFind s.tasks id = some t) :
    (update_task_status env outcome s ⟨id, S⟩).2.1.success = true
    ∧ (get_task (update_task_status env outcome s ⟨id, S⟩).1 id).2.task
        = some { t with status := S }
    ∧ ((get_task (update_task_status env outcome s ⟨id, S⟩).1 id).2.task).map
        Task.status = some S := by
  have hfind :
      mapFind (update_task_status env outcome s ⟨id, S⟩).1.tasks id
        = some { t with status := S } := by
    simp only [update_task_status, h]
    exact mapFind_mapInsert_self s.tasks id _
  refine ⟨?_, ?_, ?_⟩
  · simp [update_task_status, h]
  · simp [get_task, hfind]
  · simp [get_task, hfind]

/-- Witness for C3: flip the Completed fixture task back to Pending. -/
theorem C3_witness :
    mapFind stateA.tasks "a" = some taskA
    ∧ ((get_task (update_task_status env0 SendResult.Offline stateA
          ⟨"a", TaskStatus.Pending⟩).1 "a").2.task).map Task.status
        = some TaskStatus.Pending := by
  have h : mapFind stateA.tasks "a" = some taskA := rfl
  exact ⟨h, (C3_update_always_sets_status env0 SendResult.Offline stateA "a"
    TaskStatus.Pending taskA h).2.2⟩

/-- C4: on a missing identifier, update_task_status answers the structured
not-found response, leaves the task map (hence statistics().total), the
creation counter and the subscriber directory untouched, and bumps only the
request counter. -/
theorem C4_update_missing_not_found (env : Env) (outcome : SendResult Bool)
    (s : TaskManagerState) (id : String) (S : TaskStatus)
    (h : mapFind s.tasks id = none) :
    (update_task_status env outcome s ⟨id, S⟩).2.1.success = false
    ∧ (update_task_status env outcome s ⟨id, S⟩).2.1.task = none
    ∧ (update_task_status env outcome s ⟨id, S⟩).2.1.message = "Task not found"
    ∧ (update_task_status env outcome s ⟨id, S⟩).1.tasks = s.tasks
    ∧ (get_statistics (update_task_status env outcome s ⟨id, S⟩).1).total_tasks
        = (get_statistics s).total_tasks
    ∧ (update_task_status env outcome s ⟨id, S⟩).1.task_creation_count
        = s.task_creation_count
    ∧ (update_task_status env outcome s ⟨id, S⟩).1.active_ws_connections
        = s.active_ws_connections
    ∧ (update_task_status env outcome s ⟨id, S⟩).1.request_count
        = s.request_count + 1 := by
  simp [update_task_status, h, get_statistics]

/-- Witness for C4 at an identifier absent from the fixture state. -/
theorem C4_witness :
    (update_task_status env0 SendResult.Timeout stateA
        ⟨"zz", TaskStatus.Completed⟩).2.1.success = false
    ∧ (update_task_status env0 SendResult.Timeout stateA
        ⟨"zz", TaskStatus.Completed⟩).1.request_count
        = stateA.request_count + 1 := by
  have h : mapFind stateA.tasks "zz" = none := by decide
  have hall := C4_update_missing_not_found env0 SendResult.Timeout stateA "zz"
    TaskStatus.Completed h
  exact ⟨hall.1, hall.2.2.2.2.2.2.2⟩

/-- Mutating operation of the observed surface: a create or a status update
(deletions do not exist). -/
inductive Op where
  | createOp : Env → String → Nat → SendResult Bool → NewTaskRequest → Op
  | updateOp : Env → SendResult Bool → TaskStatusUpdateRequest → Op

/-- State reached by one operation. -/
def applyOp (s : TaskManagerState) : Op → TaskManagerState
  | .createOp env g n o r => (create_task env g n o s r).1
  | .updateOp env o r => (update_task_status env o s r).1

/-- State reached by a sequence of creates and status updates. -/
def applyOps (s : TaskManagerState) (ops : List Op) : TaskManagerState :=
  ops.foldl applyOp s

/-- C5: after any sequence of creates and updates, statistics().total equals
the length of the get_all listing, and the pending and completed counts are
the call-time scan counts of the listing. -/
theorem C5_statistics_agree_with_listing (s0 : TaskManagerState)
    (ops : List Op) :
    (get_statistics (applyOps s0 ops)).total_tasks
      = (get_all_tasks (applyOps s0 ops)).2.length
    ∧ (get_statistics (applyOps s0 ops)).pending_tasks
      = ((get_all_tasks (applyOps s0 ops)).2.filter
          (fun t => t.status = TaskStatus.Pending)).length
    ∧ (get_statistics (applyOps s0 ops)).completed_tasks
      = ((get_all_tasks (applyOps s0 ops)).2.filter
          (fun t => t.status = TaskStatus.Completed)).length := by
  refine ⟨?_, rfl, rfl⟩
  simp [get_statistics, get_all_tasks]

/-- Arguments of one create request: the generated identifier, the clock
value, the storage outcome and the request payload. -/
structure CreateIn where
  gen_id : String
  now : Nat
  outcome : SendResult Bool
  req : NewTaskRequest

/-- Run a sequence of creates, collecting the responses. -/
def runCreates (env : Env) :
    TaskManagerState → List CreateIn → TaskManagerState × List TaskResponse
  | s, [] => (s, [])
  | s, c :: cs =>
      let out := create_task env c.gen_id c.now c.outcome s c.req
      let rest := runCreates env out.1 cs
      (rest.1, out.2.1 :: rest.2)

theorem runCreates_spec (env : Env) (s0 : TaskManagerState)
    (ins : List CreateIn) :
    ((runCreates env s0 ins).2.map (fun r => r.task.map Task.id)
       = ins.map (fun c => some c.gen_id))
    ∧ (∀ r ∈ (runCreates env s0 ins).2, ∀ t : Task,
        r.task = some t → t.status = TaskStatus.Pending)
    ∧ (runCreates env s0 ins).1.task_creation_count
        = s0.task_creation_count + ins.length
    ∧ (runCreates env s0 ins).1.request_count
        = s0.request_count + ins.length := by
  induction ins generalizing s0 with
  | nil => simp [runCreates]
  | cons c cs ih =>
      obtain ⟨h1, h2, h3, h4⟩ :=
        ih (create_task env c.gen_id c.now c.outcome s0 c.req).1
      refine ⟨?_, ?_, ?_, ?_⟩
      · simpa [runCreates, create_task] using h1
      · intro r hr t ht
        simp only [runCreates, List.mem_cons] at hr
        rcases hr with rfl | hr
        · cases ht; rfl
        · exact h2 r hr t ht
      · simp only [runCreates]
        rw [h3]
        simp [create_task]
        omega
      · simp only [runCreates]
        rw [h4]
        simp [create_task]
        omega

/-- C7: over any sequence of creates whose generated identifiers are fresh
(pairwise distinct, the collision-resistance contract of the identifier
generator), every response carries a task with status Pending, the returned
identifiers are exactly the generated ones and hence pairwise distinct, and
each create bumps the creation counter and the request counter by one. -/
theorem C7_creates_unique_pending (env : Env) (s0 : TaskManagerState)
    (ins : List CreateIn) (h : (ins.map CreateIn.gen_id).Nodup) :
    ((runCreates env s0 ins).2.map (fun r => r.task.map Task.id)
       = ins.map (fun c => some c.gen_id))
    ∧ (∀ r ∈ (runCreates env s0 ins).2, ∀ t : Task,
        r.task = some t → t.status = TaskStatus.Pending)
    ∧ ((runCreates env s0 ins).2.map (fun r => r.task.map Task.id)).Nodup
    ∧ (runCreates env s0 ins).1.task_creation_count
        = s0.task_creation_count + ins.length
    ∧ (runCreates env s0 ins).1.request_count
        = s0.request_count + ins.length
    ∧ (∀ (s : TaskManagerState) (c : CreateIn),
        (create_task env c.gen_id c.now c.outcome s c.req).1.task_creation_count
          = s.task_creation_count + 1
        ∧ (create_task env c.gen_id c.now c.outcome s c.req).1.request_count
          = s.request_count + 1) := by
  obtain ⟨h1, h2, h3, h4⟩ := runCreates_spec env s0 ins
  refine ⟨h1, h2, ?_, h3, h4, fun s c => ⟨rfl, rfl⟩⟩
  rw [h1]
  have hinj : Function.Injective (fun x : String => some x) :=
    Option.some_injective String
  have := List.Nodup.map hinj h
  simpa [List.map_map, Function.comp] using this

/-- Two create inputs with distinct generated identifiers. -/
def insW : List CreateIn :=
  [{ gen_id := "a", now := 0, outcome := SendResult.Success true,
     req := { title := "t1", description := "d1", assigned_to := none } },
   { gen_id := "b", now := 1, outcome := SendResult.Timeout,
     req := { title := "t2", description := "d2", assigned_to := some "u" } }]

/-- Witness for C7 on two concrete creates. -/
theorem C7_witness :
    ((insW.map CreateIn.gen_id).Nodup)
    ∧ ((runCreates env0 state0 insW).2.map (fun r => r.task.map Task.id)
        = [some "a", some "b"])
    ∧ (runCreates env0 state0 insW).1.task_creation_count = 2 := by
  have hnd : (insW.map CreateIn.gen_id).Nodup := by decide
  obtain ⟨h1, _, _, h4, _⟩ := C7_creates_unique_pending env0 state0 insW hnd
  exact ⟨hnd, h1, h4⟩

/-- C8: get_task bumps the request counter by exactly one whether or not the
identifier is present, changes nothing else, and on a miss answers the
structured not-found response with no task object. -/
theorem C8_get_counts_and_signals_not_found (s : TaskManagerState)
    (id : String) :
    (get_task s id).1.request_count = s.request_count + 1
    ∧ (get_task s id).1.tasks = s.tasks
    ∧ (get_task s id).1.task_creation_count = s.task_creation_count
    ∧ (get_task s id).1.active_ws_connections = s.active_ws_connections
    ∧ (mapFind s.tasks id = none →
        (get_task s id).2.success = false
        ∧ (get_task s id).2.task = none
        ∧ (get_task s id).2.message = "Task not found") := by
  cases hm : mapFind s.tasks id <;> simp [get_task, hm]

/-- Witness for C8 at an identifier missing from the empty state. -/
theorem C8_witness :
    (get_task state0 "x").1.request_count = state0.request_count + 1
    ∧ (get_task state0 "x").2.success = false
    ∧ (get_task state0 "x").2.task = none := by
  obtain ⟨h1, _, _, _, h5⟩ := C8_get_counts_and_signals_not_found state0 "x"
  have hmiss := h5 (by decide)
  exact ⟨h1, hmiss.1, hmiss.2.1⟩

/-- C9: get_tasks_by_status is a pure filter: the state comes back untouched
(in particular both counters), and the returned tasks are exactly those of
the registry whose status is the requested one. -/
theorem C9_filter_is_pure (s : TaskManagerState) (status : TaskStatus) :
    (get_tasks_by_status s status).1 = s
    ∧ (get_tasks_by_status s status).1.request_count = s.request_count
    ∧ (get_tasks_by_status s status).1.task_creation_count
        = s.task_creation_count
    ∧ (∀ t : Task, t ∈ (get_tasks_by_status s status).2 ↔
        (t ∈ s.tasks.map (fun kv => kv.2) ∧ t.status = status)) := by
  refine ⟨rfl, rfl, rfl, fun t => ?_⟩
  simp [get_tasks_by_status, List.mem_filter]

/-- Witness for C9 on the fixture state holding one Completed task. -/
theorem C9_witness :
    (get_tasks_by_status stateA TaskStatus.Completed).1 = stateA
    ∧ (taskA ∈ (get_tasks_by_status stateA TaskStatus.Completed).2 ↔
        (taskA ∈ stateA.tasks.map (fun kv => kv.2)
         ∧ taskA.status = TaskStatus.Completed)) := by
  obtain ⟨h1, _, _, h4⟩ := C9_filter_is_pure stateA TaskStatus.Completed
  exact ⟨h1, h4 taskA⟩

/-- C10: handling a Subscribe WebSocket message (with a server handle
present) bumps the request counter by one, because the initial sync obtains
the task list through get_all_tasks, the same operation behind the HTTP list
endpoint, whose listing it pushes to that channel alone. -/
theorem C10_subscribe_bumps_request_count (env : Env) (s : TaskManagerState)
    (channel_id : Nat) (client_id : String)
    (h : env.serverAvailable = true) :
    (handle_websocket env s channel_id WsMessageType.Binary
        (some (WebSocketMessage.Subscribe client_id))).1.request_count
      = s.request_count + 1
    ∧ ∃ b : Bool,
        (handle_websocket env s channel_id WsMessageType.Binary
            (some (WebSocketMessage.Subscribe client_id))).2
          = [(channel_id, s.tasks.map (fun kv => kv.2), b)] := by
  refine ⟨?_, env.sendResult channel_id, ?_⟩ <;>
    simp [handle_websocket, h, get_all_tasks]

/-- Witness for C10: subscribing channel 7 on the empty state. -/
theorem C10_witness :
    (handle_websocket env0 state0 7 WsMessageType.Binary
        (some (WebSocketMessage.Subscribe "cl"))).1.request_count
      = state0.request_count + 1 :=
  (C10_subscribe_bumps_request_count env0 state0 7 "cl" rfl).1

/-- C6: with a server handle present, broadcast_task_update attempts one
send per currently subscribed channel, each carrying the serialized task;
the attempted channels do not depend on which sends fail (one failing
channel stops none of the others), and the caller-visible create response is
identical under any send outcomes (the operation never fails visibly).
Consequently a channel that has just subscribed receives the task of every
subsequent create, and a channel that has just unsubscribed receives
none. -/
theorem C6_broadcast_fan_out (env env' : Env) (s : TaskManagerState)
    (task : Task) (ch : Nat) (cid : String) (g : String) (n : Nat)
    (o : SendResult Bool) (req : NewTaskRequest)
    (hEnv : env.serverAvailable = true)
    (hEnv' : env'.serverAvailable = true) :
    ((broadcast_task_update env s task).map (fun p => p.1)
       = s.active_ws_connections.map (fun kv => kv.1))
    ∧ (∀ p ∈ broadcast_task_update env s task, p.2.1 = task)
    ∧ ((broadcast_task_update env s task).map (fun p => p.1)
       = (broadcast_task_update env' s task).map (fun p => p.1))
    ∧ ((create_task env g n o s req).2.1 = (create_task env' g n o s req).2.1)
    ∧ (∃ b : Bool,
        (ch, { id := g, title := req.title, description := req.description,
               status := TaskStatus.Pending, created_at := n,
               assigned_to := req.assigned_to }, b)
          ∈ (create_task env g n o
              (handle_websocket env s ch WsMessageType.Binary
                (some (WebSocketMessage.Subscribe cid))).1 req).2.2)
    ∧ (∀ p ∈ (create_task env g n o
          (handle_websocket env s ch WsMessageType.Binary
            (some WebSocketMessage.Unsubscribe)).1 req).2.2,
        p.1 ≠ ch) := by
  refine ⟨?_, ?_, ?_, rfl, ?_, ?_⟩
  · simp [broadcast_task_update, hEnv, List.map_map, Function.comp]
  · intro p hp
    simp only [broadcast_task_update, hEnv, if_true, List.mem_map] at hp
    obtain ⟨kv, _, rfl⟩ := hp
    rfl
  · simp [broadcast_task_update, hEnv, hEnv', List.map_map, Function.comp]
  · obtain ⟨kv, hmem, hk⟩ :=
      mem_keys_mapInsert s.active_ws_connections ch cid
    refine ⟨env.sendResult kv.1, ?_⟩
    simp only [create_task, handle_websocket, hEnv, if_true,
      broadcast_task_update, get_all_tasks, List.mem_map]
    exact ⟨kv, hmem, by rw [hk]⟩
  · intro p hp
    simp only [create_task, handle_websocket, broadcast_task_update, hEnv,
      if_true, List.mem_map] at hp
    obtain ⟨kv, hmem, rfl⟩ := hp
    exact not_mem_keys_mapRemove s.active_ws_connections ch kv hmem

/-- State with channels 3 and 9 subscribed. -/
def stateSubs : TaskManagerState :=
  { tasks := [], active_ws_connections := [(3, "alice"), (9, "bob")],
    request_count := 0, task_creation_count := 0 }

/-- Witness for C6 on two subscribed channels, comparing an all-sends-succeed
environment with an all-sends-fail one. -/
theorem C6_witness :
    ((broadcast_task_update env0 stateSubs taskA).map (fun p => p.1) = [3, 9])
    ∧ ((broadcast_task_update env0 stateSubs taskA).map (fun p => p.1)
       = (broadcast_task_update envFail stateSubs taskA).map (fun p => p.1))
    ∧ (∀ p ∈ (create_task env0 "g" 2 SendResult.Timeout
          (handle_websocket env0 stateSubs 3 WsMessageType.Binary
            (some WebSocketMessage.Unsubscribe)).1 reqA).2.2,
        p.1 ≠ 3) := by
  obtain ⟨h1, _, h3, _, _, h6⟩ := C6_broadcast_fan_out env0 envFail stateSubs
    taskA 3 "c" "g" 2 SendResult.Timeout reqA rfl rfl
  exact ⟨h1, h3, h6⟩

end TaskManager
